import Mathlib

/-!
# Verification of the server bootstrap and request-observability layer

Shallow embedding of `src/server/index.ts`: the request-logging middleware
(lines 15-55), the error-handling middleware (lines 75-93), and the
resilient listener error handler (lines 110-126).

JavaScript strings are modelled as Lean `String` values, one `Char` per
code unit; JavaScript runtime values that can reach `JSON.stringify` are
modelled by the inductive `JsValue`; an exception raised inside a handler
is modelled by `Except.error`.
-/

/-- A JavaScript value that a route handler may pass to `res.json`.
`bigintV` models a BigInt, the representative value on which
`JSON.stringify` throws a `TypeError`. -/
inductive JsValue : Type where
  | nullV : JsValue
  | boolV (b : Bool) : JsValue
  | numV (n : Int) : JsValue
  | strV (s : String) : JsValue
  | bigintV (n : Int) : JsValue
  | arrV (elems : List JsValue) : JsValue
  | objV (fields : List (String × JsValue)) : JsValue

/-- JavaScript truthiness of a `JsValue`, as used by `if (capturedJsonResponse)`
on line 39 of `src/server/index.ts`. -/
def jsTruthy : JsValue → Bool
  | .nullV => false
  | .boolV b => b
  | .numV n => n != 0
  | .strV s => s != ""
  | .bigintV n => n != 0
  | .arrV _ => true
  | .objV _ => true

/-- One hexadecimal digit, lower case, as produced by JSON escaping. -/
def hexDigit (d : Nat) : Char :=
  if d < 10 then Char.ofNat (48 + d) else Char.ofNat (87 + d)

/-- JSON escaping of a single character, as `JSON.stringify` performs on
string values: quote, backslash and control characters are escaped, all
other characters pass through unchanged. -/
def escChar (c : Char) : List Char :=
  if c = '"' then ['\\', '"']
  else if c = '\\' then ['\\', '\\']
  else if c = '\n' then ['\\', 'n']
  else if c = '\r' then ['\\', 'r']
  else if c = '\t' then ['\\', 't']
  else if c = '\x08' then ['\\', 'b']
  else if c = '\x0c' then ['\\', 'f']
  else if c.toNat < 32 then ['\\', 'u', '0', '0', hexDigit (c.toNat / 16), hexDigit (c.toNat % 16)]
  else [c]

/-- JSON escaping of a whole string. -/
def escapeJson (s : String) : String :=
  ⟨s.data.flatMap escChar⟩

mutual

/-- `JSON.stringify`, restricted to the values of `JsValue`.  Returns
`Except.error ()` exactly where the JavaScript function throws (a BigInt
anywhere in the value); the error propagates out of arrays and objects,
as the JavaScript exception does. -/
def jsonStringify : JsValue → Except Unit String
  | .nullV => .ok "null"
  | .boolV b => .ok (if b then "true" else "false")
  | .numV n => .ok (toString n)
  | .strV s => .ok ("\"" ++ escapeJson s ++ "\"")
  | .bigintV _ => .error ()
  | .arrV xs =>
    match stringifyElems xs with
    | .error e => .error e
    | .ok ss => .ok ("[" ++ String.intercalate "," ss ++ "]")
  | .objV fs =>
    match stringifyFields fs with
    | .error e => .error e
    | .ok ss => .ok ("\x7b" ++ String.intercalate "," ss ++ "\x7d")

/-- Serialization of the element list of a JSON array. -/
def stringifyElems : List JsValue → Except Unit (List String)
  | [] => .ok []
  | v :: vs =>
    match jsonStringify v with
    | .error e => .error e
    | .ok s =>
      match stringifyElems vs with
      | .error e => .error e
      | .ok ss => .ok (s :: ss)

/-- Serialization of the field list of a JSON object. -/
def stringifyFields : List (String × JsValue) → Except Unit (List String)
  | [] => .ok []
  | (k, v) :: fs =>
    match jsonStringify v with
    | .error e => .error e
    | .ok s =>
      match stringifyFields fs with
      | .error e => .error e
      | .ok ss => .ok (("\"" ++ escapeJson k ++ "\":" ++ s) :: ss)

end

/-! ## Request Observer (src/server/index.ts lines 15-55) -/

/-- The test `path.startsWith("/api")` on line 37, on the code-unit model of
JavaScript strings. -/
def pathIsApi (p : String) : Bool :=
  "/api".data.isPrefixOf p.data

/-- JavaScript truthiness of the `capturedJsonResponse` variable
(`Record | undefined`, modelled as `Option JsValue`): `undefined` is falsy,
otherwise ordinary value truthiness applies. -/
def optTruthy : Option JsValue → Bool
  | none => false
  | some v => jsTruthy v

/-- The `requestId` header value from line 23 (`req.headers["x-request-id"]`),
`none` when the header is absent; `if (requestId)` on line 42 is JavaScript
truthiness, so an empty-string header value is treated like an absent one. -/
def idSegment : Option String → Option String
  | none => none
  | some rid => if rid = "" then none else some rid

/-- Lines 39-41: the optional ` :: <body>` segment.  When the captured
response is truthy, `JSON.stringify` runs; its exception (`Except.error`)
propagates out of the handler, exactly as the uncaught `TypeError` would. -/
def bodySegment : Option JsValue → Except Unit (Option String)
  | none => .ok none
  | some b =>
    if jsTruthy b then
      match jsonStringify b with
      | .error e => .error e
      | .ok s => .ok (some s)
    else .ok none

/-- Lines 38-44: the fully assembled log line, before truncation:
`<METHOD> <PATH> <STATUS> in <DURATION>ms`, then ` :: <body>` when a body
segment is present, then ` [<requestId>]` when an id segment is present. -/
def assembleLine (method p : String) (statusCode duration : Nat)
    (bodySeg idSeg : Option String) : String :=
  (method ++ " " ++ p ++ " " ++ toString statusCode ++ " in " ++ toString duration ++ "ms")
  ++ (match bodySeg with
      | some s => " :: " ++ s
      | none => "")
  ++ (match idSeg with
      | some rid => " [" ++ rid ++ "]"
      | none => "")

/-- Lines 46-48: `if (logLine.length > 100) logLine = logLine.slice(0, 99) + "…"`. -/
def truncate100 (s : String) : String :=
  if 100 < s.data.length then ⟨s.data.take 99 ++ ['…']⟩ else s

/-- The `res.on("finish", ...)` callback, lines 35-52, for one request.
Returns the list of log lines handed to `log` (empty for non-API paths),
or `Except.error` when the callback itself throws. -/
def finishHandler (method p : String) (statusCode duration : Nat)
    (captured : Option JsValue) (requestId : Option String) :
    Except Unit (List String) :=
  if pathIsApi p then
    match bodySegment captured with
    | .error e => .error e
    | .ok seg => .ok [truncate100 (assembleLine method p statusCode duration seg (idSegment requestId))]
  else .ok []

/-- Lines 29-33, the Response Capture Proxy: every call of the overridden
`res.json` overwrites `capturedJsonResponse`, so after the response the
variable holds the argument of the last call, or `undefined` (`none`) when
the handler never called `res.json`. -/
def capturedJson (jsonCalls : List JsValue) : Option JsValue :=
  jsonCalls.getLast?

/-- One observed request, with the data the middleware of lines 15-55 reads:
method, path, the optional `x-request-id` header, the final status code, the
measured duration, the arguments of the `res.json` calls the handler made,
and whether the response reached its `finish` event. -/
structure ApiRequest where
  method : String
  path : String
  requestId : Option String
  statusCode : Nat
  duration : Nat
  jsonCalls : List JsValue
  finished : Bool

/-- The log output of the Request Observer for one request: the `finish`
callback runs exactly when the response finishes, so an unfinished request
produces no lines. -/
def observerOutput (r : ApiRequest) : Except Unit (List String) :=
  if r.finished then
    finishHandler r.method r.path r.statusCode r.duration (capturedJson r.jsonCalls) r.requestId
  else .ok []

/-! ## Error Normalizer (src/server/index.ts lines 75-93) -/

/-- The untyped error value reaching the error-handling middleware:
the fields the middleware reads (`err.status`, `err.statusCode`,
`err.message`, `err.stack`), each possibly absent. -/
structure JsError where
  status : Option Int
  statusCode : Option Int
  message : Option String
  stack : Option String

/-- JavaScript truthiness of an optional numeric field: absent and `0`
are falsy. -/
def truthyNum : Option Int → Bool
  | none => false
  | some n => n != 0

/-- JavaScript truthiness of an optional string field: absent and `""`
are falsy. -/
def truthyStr : Option String → Bool
  | none => false
  | some s => s != ""

/-- Line 76: `const status = err.status || err.statusCode || 500`. -/
def resolveStatus (e : JsError) : Int :=
  if truthyNum e.status then e.status.getD 0
  else if truthyNum e.statusCode then e.statusCode.getD 0
  else 500

/-- Line 77: `const message = err.message || "Internal Server Error"`. -/
def resolveMessage (e : JsError) : String :=
  if truthyStr e.message then e.message.getD "" else "Internal Server Error"

/-- What the client receives from the error middleware: an HTTP status and
a JSON body. -/
structure ErrorResponse where
  status : Int
  body : JsValue

/-- The diagnostics record of lines 80-86, written only to `console.error`,
never to the client. -/
structure ErrorDiagnostics where
  status : Int
  message : Option String
  stack : Option String
  url : String
  method : String
deriving DecidableEq

/-- Line 89: `res.status(status).json({ message })` — the client-visible
result of the error-handling middleware.  The body is the one-field object
`{ message }`; the middleware neither re-throws nor calls `next`. -/
def errorHandler (e : JsError) : ErrorResponse :=
  { status := resolveStatus e
    body := .objV [("message", .strV (resolveMessage e))] }

/-- Lines 80-86: the operator-facing log record for the same error. -/
def errorDiagnostics (e : JsError) (url method : String) : ErrorDiagnostics :=
  { status := resolveStatus e
    message := e.message
    stack := e.stack
    url := url
    method := method }

/-! ## Resilient Listener (src/server/index.ts lines 104-126) -/

/-- The outcome of one `server.listen` attempt: success (the `listening`
callback fires) or an `error` event whose `err.code` is the given string. -/
inductive ListenOutcome : Type where
  | ok : ListenOutcome
  | err (code : String) : ListenOutcome
deriving DecidableEq

/-- What the `server.on("error")` handler of lines 110-122 does in response
to one `error` event: the lines it logs, the delay of the scheduled retry
(`none` when no retry is scheduled), whether it closes the listener before
retrying, the `(port, host)` of the retried `listen` call, and whether it
re-throws. -/
structure ErrorAction where
  logs : List String
  retryDelayMs : Option Nat
  closesBeforeRetry : Bool
  retryTarget : Option (Nat × String)
  rethrows : Bool
deriving DecidableEq

/-- The `server.on("error")` handler, lines 110-122, transcribed: on
`EADDRINUSE` it logs the busy notice and schedules (after 1000 ms) a
`server.close()` followed by `server.listen(port, "0.0.0.0")`; on any other
code it logs the error and does nothing else.  The handler body contains no
`throw`, so it never re-raises. -/
def onServerError (port : Nat) (code : String) : ErrorAction :=
  if code = "EADDRINUSE" then
    { logs := ["Port " ++ toString port ++ " is busy, retrying in 1 second..."]
      retryDelayMs := some 1000
      closesBeforeRetry := true
      retryTarget := some (port, "0.0.0.0")
      rethrows := false }
  else
    { logs := ["Server error:"]
      retryDelayMs := none
      closesBeforeRetry := false
      retryTarget := none
      rethrows := false }

/-- Total number of retry `listen` attempts in one execution of the
listener.  The list holds the outcomes of the successive `listen` attempts:
the head is the initial attempt of line 124; because the handler is
registered with `server.on` (not `once`), every `error` event runs
`onServerError` again, and each event for which the handler schedules a
retry produces one further attempt whose outcome is the next list entry. -/
def retryCount (port : Nat) : List ListenOutcome → Nat
  | [] => 0
  | .ok :: _ => 0
  | .err c :: rest =>
    if (onServerError port c).retryDelayMs.isSome then 1 + retryCount port rest else 0

/-! ## Claims about the Resilient Listener -/

/-- C1, counterexample: in the execution where the initial `listen` and the
first retry both fail with `EADDRINUSE` and the second retry succeeds, two
retry attempts are made, so the total number of retries is not bounded by
one. -/
theorem C1_retry_count_two :
    ¬ (retryCount 5000 [ListenOutcome.err "EADDRINUSE", ListenOutcome.err "EADDRINUSE", ListenOutcome.ok] ≤ 1) := by
  decide

/-- C1, amended: each `EADDRINUSE` error event makes the handler log the
busy notice, wait 1000 ms, close the listener and attempt one further
`listen` on the same `(port, "0.0.0.0")` — but the handler is registered
with `server.on`, so it stays installed, and the total number of retry
attempts equals the number of leading `EADDRINUSE` outcomes of the
execution, which is not bounded by one when the condition recurs. -/
theorem C1_retries_track_error_events (port : Nat) (outs : List ListenOutcome) :
    retryCount port outs
      = (outs.takeWhile (fun o => o == ListenOutcome.err "EADDRINUSE")).length
    ∧ onServerError port "EADDRINUSE"
      = { logs := ["Port " ++ toString port ++ " is busy, retrying in 1 second..."]
          retryDelayMs := some 1000
          closesBeforeRetry := true
          retryTarget := some (port, "0.0.0.0")
          rethrows := false } := by
  constructor
  · induction outs with
    | nil => rfl
    | cons o rest ih =>
      cases o with
      | ok => rfl
      | err c =>
        by_cases h : c = "EADDRINUSE"
        · subst h
          simp [retryCount, onServerError, List.takeWhile, ih, Nat.add_comm]
        · have hb : (ListenOutcome.err c == ListenOutcome.err "EADDRINUSE") = false :=
            beq_eq_false_iff_ne.mpr (by simp [h])
          simp [retryCount, onServerError, List.takeWhile, h, hb]
  · rfl

/-- C9: an `error` event whose code is not `EADDRINUSE` makes the handler
log the error, schedule no retry, close nothing and re-throw nothing (the
process is not crashed), and the execution performs zero retry attempts. -/
theorem C9_no_retry_other_errors (port : Nat) (code : String) (h : code ≠ "EADDRINUSE") :
    onServerError port code
      = { logs := ["Server error:"]
          retryDelayMs := none
          closesBeforeRetry := false
          retryTarget := none
          rethrows := false }
    ∧ ∀ rest, retryCount port (ListenOutcome.err code :: rest) = 0 := by
  refine ⟨by simp [onServerError, h], fun rest => by simp [retryCount, onServerError, h]⟩

/-- C9, witness: the `EACCES` (permission denied) bind failure is logged
and never retried. -/
theorem C9_no_retry_other_errors_witness :
    onServerError 5000 "EACCES"
      = { logs := ["Server error:"]
          retryDelayMs := none
          closesBeforeRetry := false
          retryTarget := none
          rethrows := false }
    ∧ retryCount 5000 [ListenOutcome.err "EACCES"] = 0 :=
  ⟨(C9_no_retry_other_errors 5000 "EACCES" (by decide)).1,
   (C9_no_retry_other_errors 5000 "EACCES" (by decide)).2 []⟩

/-! ## Claims about the Error Normalizer -/

/-- C3: every error with `status = 404` and `message = "not found"` is
answered with HTTP status 404 and exactly the JSON body
`\x7b"message":"not found"\x7d`; the stack trace and the other diagnostics
appear only in the operator-facing log record. -/
theorem C3_not_found_normalized (e : JsError) (url method : String)
    (hs : e.status = some 404) (hm : e.message = some "not found") :
    errorHandler e = { status := 404, body := JsValue.objV [("message", JsValue.strV "not found")] }
    ∧ jsonStringify (errorHandler e).body = .ok "\x7b\"message\":\"not found\"\x7d"
    ∧ errorDiagnostics e url method
      = { status := 404, message := some "not found", stack := e.stack, url := url, method := method } := by
  have h1 : errorHandler e
      = { status := 404, body := JsValue.objV [("message", JsValue.strV "not found")] } := by
    simp [errorHandler, resolveStatus, resolveMessage, truthyNum, truthyStr, hs, hm]
  refine ⟨h1, by rw [h1]; rfl, ?_⟩
  simp [errorDiagnostics, resolveStatus, truthyNum, hs, hm]

/-- C3, witness: a concrete 404 error carrying a stack trace and a
competing `statusCode` field. -/
theorem C3_not_found_normalized_witness :
    errorHandler { status := some 404, statusCode := some 500, message := some "not found", stack := some "Error: not found" }
      = { status := 404, body := JsValue.objV [("message", JsValue.strV "not found")] }
    ∧ jsonStringify (errorHandler { status := some 404, statusCode := some 500, message := some "not found", stack := some "Error: not found" }).body
      = .ok "\x7b\"message\":\"not found\"\x7d"
    ∧ errorDiagnostics { status := some 404, statusCode := some 500, message := some "not found", stack := some "Error: not found" } "/api/widgets/9" "GET"
      = { status := 404, message := some "not found", stack := some "Error: not found", url := "/api/widgets/9", method := "GET" } :=
  C3_not_found_normalized
    { status := some 404, statusCode := some 500, message := some "not found", stack := some "Error: not found" }
    "/api/widgets/9" "GET" rfl rfl

/-- C4: an error carrying no status-like field and no message field is
answered with HTTP status 500 and the generic fallback body. -/
theorem C4_bare_error_500 (e : JsError)
    (h1 : e.status = none) (h2 : e.statusCode = none) (h3 : e.message = none) :
    errorHandler e = { status := 500, body := JsValue.objV [("message", JsValue.strV "Internal Server Error")] }
    ∧ jsonStringify (errorHandler e).body = .ok "\x7b\"message\":\"Internal Server Error\"\x7d" := by
  have h : errorHandler e
      = { status := 500, body := JsValue.objV [("message", JsValue.strV "Internal Server Error")] } := by
    simp [errorHandler, resolveStatus, resolveMessage, truthyNum, truthyStr, h1, h2, h3]
  exact ⟨h, by rw [h]; rfl⟩

/-- C4, witness: a bare error that carries only a stack trace. -/
theorem C4_bare_error_500_witness :
    errorHandler { status := none, statusCode := none, message := none, stack := some "boom" }
      = { status := 500, body := JsValue.objV [("message", JsValue.strV "Internal Server Error")] }
    ∧ jsonStringify (errorHandler { status := none, statusCode := none, message := none, stack := some "boom" }).body
      = .ok "\x7b\"message\":\"Internal Server Error\"\x7d" :=
  C4_bare_error_500 { status := none, statusCode := none, message := none, stack := some "boom" } rfl rfl rfl

/-- C10: in `err.status || err.statusCode || 500`, a truthy `status` wins
over any `statusCode`; a present-but-falsy `status` (`0`) is treated as
absent and resolution falls through to `statusCode`; and when `status`,
`statusCode` and `message` are all falsy or absent the response is the
default 500 with the generic message. -/
theorem C10_status_resolution :
    (∀ (e : JsError) (s : Int), e.status = some s → s ≠ 0 → (errorHandler e).status = s)
    ∧ (∀ (e : JsError) (c : Int), e.status = some 0 → e.statusCode = some c → c ≠ 0 →
        (errorHandler e).status = c)
    ∧ (∀ e : JsError, truthyNum e.status = false → truthyNum e.statusCode = false →
        truthyStr e.message = false →
        errorHandler e = { status := 500, body := JsValue.objV [("message", JsValue.strV "Internal Server Error")] }) := by
  refine ⟨?_, ?_, ?_⟩
  · intro e s hs hne
    simp [errorHandler, resolveStatus, truthyNum, hs, hne]
  · intro e c hs hc hne
    simp [errorHandler, resolveStatus, truthyNum, hs, hc, hne]
  · intro e h1 h2 h3
    simp [errorHandler, resolveStatus, resolveMessage, h1, h2, h3]

/-- C10, witness: `status` beats `statusCode`; `status = 0` falls through
to `statusCode`; all-falsy fields give the 500 default. -/
theorem C10_status_resolution_witness :
    (errorHandler { status := some 404, statusCode := some 500, message := some "x", stack := none }).status = 404
    ∧ (errorHandler { status := some 0, statusCode := some 418, message := none, stack := none }).status = 418
    ∧ errorHandler { status := some 0, statusCode := none, message := some "", stack := none }
      = { status := 500, body := JsValue.objV [("message", JsValue.strV "Internal Server Error")] } :=
  ⟨C10_status_resolution.1 { status := some 404, statusCode := some 500, message := some "x", stack := none } 404 rfl (by decide),
   C10_status_resolution.2.1 { status := some 0, statusCode := some 418, message := none, stack := none } 418 rfl rfl (by decide),
   C10_status_resolution.2.2 { status := some 0, statusCode := none, message := some "", stack := none } rfl rfl rfl⟩

/-! ## Claims about the Request Observer -/

/-- C7: the cap is applied exactly once, to the fully assembled line: a
line longer than 100 characters becomes its first 99 characters followed by
the single ellipsis character (length exactly 100), a line of at most 100
characters is emitted unchanged, every emitted line has length at most 100,
and the `finish` handler emits precisely the truncation of the assembled
line, never a line assembled from individually truncated fields. -/
theorem C7_truncation_cap :
    (∀ s : String, 100 < s.data.length →
        truncate100 s = ⟨s.data.take 99 ++ ['…']⟩ ∧ (truncate100 s).data.length = 100)
    ∧ (∀ s : String, s.data.length ≤ 100 → truncate100 s = s)
    ∧ (∀ s : String, (truncate100 s).data.length ≤ 100)
    ∧ (∀ m p st d cap rid seg, bodySegment cap = .ok seg →
        finishHandler m p st d cap rid
          = if pathIsApi p then
              .ok [truncate100 (assembleLine m p st d seg (idSegment rid))]
            else .ok []) := by
  have hlong : ∀ s : String, 100 < s.data.length →
      truncate100 s = ⟨s.data.take 99 ++ ['…']⟩ ∧ (truncate100 s).data.length = 100 := by
    intro s h
    have e1 : truncate100 s = ⟨s.data.take 99 ++ ['…']⟩ := by
      unfold truncate100
      rw [if_pos h]
    refine ⟨e1, ?_⟩
    rw [e1]
    show (s.data.take 99 ++ ['…']).length = 100
    rw [List.length_append, List.length_take]
    simp only [List.length_singleton]
    omega
  have hshort : ∀ s : String, s.data.length ≤ 100 → truncate100 s = s := by
    intro s h
    unfold truncate100
    rw [if_neg (Nat.not_lt.mpr h)]
  refine ⟨hlong, hshort, ?_, ?_⟩
  · intro s
    by_cases h : 100 < s.data.length
    · rw [(hlong s h).2]
    · have := Nat.not_lt.mp h
      rw [hshort s this]
      omega
  · intro m p st d cap rid seg hseg
    by_cases hp : pathIsApi p
    · simp [finishHandler, hp, hseg]
    · simp [finishHandler, hp]

/-- C7, witness: a 101-character line is cut to 100 characters; a short
line and a complete handler run pass through untouched. -/
theorem C7_truncation_cap_witness :
    (truncate100 "0123456789012345678901234567890123456789012345678901234567890123456789012345678901234567890123456789x").data.length = 100
    ∧ truncate100 "GET /api 200" = "GET /api 200"
    ∧ finishHandler "GET" "/api/y" 200 3 none none
      = if pathIsApi "/api/y" then
          .ok [truncate100 (assembleLine "GET" "/api/y" 200 3 none (idSegment none))]
        else .ok [] :=
  ⟨(C7_truncation_cap.1 "0123456789012345678901234567890123456789012345678901234567890123456789012345678901234567890123456789x" (by decide)).2,
   C7_truncation_cap.2.1 "GET /api 200" (by decide),
   C7_truncation_cap.2.2.2 "GET" "/api/y" 200 3 none none none rfl⟩

/-- C5, counterexample: a request that supplies the `x-request-id` header
with an empty value is logged without any bracket segment, refuting the
claim that the bracket segment appears exactly when the inbound request
supplied a correlation-id header. -/
theorem C5_empty_request_id_dropped :
    finishHandler "GET" "/api/x" 200 5 none (some "") = .ok ["GET /api/x 200 in 5ms"]
    ∧ ¬ ('[' ∈ "GET /api/x 200 in 5ms".data) :=
  ⟨rfl, by decide⟩

/-- C5, amended: the log line is the truncation of
`<METHOD> <PATH> <STATUS> in <DURATION>ms`, then ` :: <serialized-body>`
when the captured body is truthy (and serializes), then ` [<id>]` when the
`x-request-id` header value is truthy — a supplied-but-empty header value
or a falsy captured body (`null`, `false`, `0`, `""`) produces no segment;
the concrete widget scenario holds as specified. -/
theorem C5_log_line_format :
    finishHandler "POST" "/api/widgets" 201 12 (some (.objV [("id", .numV 7)])) (some "abc123")
      = .ok ["POST /api/widgets 201 in 12ms :: \x7b\"id\":7\x7d [abc123]"]
    ∧ (∀ m p st d cap rid seg, pathIsApi p = true → bodySegment cap = .ok seg →
        finishHandler m p st d cap rid
          = .ok [truncate100 (assembleLine m p st d seg (idSegment rid))])
    ∧ (idSegment none = none ∧ idSegment (some "") = none
       ∧ ∀ r : String, r ≠ "" → idSegment (some r) = some r)
    ∧ (bodySegment none = .ok none
       ∧ (∀ b, jsTruthy b = false → bodySegment (some b) = .ok none)
       ∧ (∀ b s, jsTruthy b = true → jsonStringify b = .ok s → bodySegment (some b) = .ok (some s)))
    ∧ (∀ m p st d seg rid,
        assembleLine m p st d seg rid
          = (m ++ " " ++ p ++ " " ++ toString st ++ " in " ++ toString d ++ "ms")
            ++ (match seg with
                | some s => " :: " ++ s
                | none => "")
            ++ (match rid with
                | some r => " [" ++ r ++ "]"
                | none => "")) := by
  refine ⟨rfl, ?_, ⟨rfl, rfl, ?_⟩, ⟨rfl, ?_, ?_⟩, fun m p st d seg rid => rfl⟩
  · intro m p st d cap rid seg hp hseg
    simp [finishHandler, hp, hseg]
  · intro r hr
    simp [idSegment, hr]
  · intro b hb
    simp [bodySegment, hb]
  · intro b s hb hs
    simp [bodySegment, hb, hs]

/-- C5, witness: a nonempty header id passes through; a falsy and a truthy
captured body produce no segment and a serialized segment respectively. -/
theorem C5_log_line_format_witness :
    finishHandler "GET" "/api/z" 200 3 none (some "r1")
      = .ok [truncate100 (assembleLine "GET" "/api/z" 200 3 none (idSegment (some "r1")))]
    ∧ idSegment (some "r1") = some "r1"
    ∧ bodySegment (some (.boolV false)) = .ok none
    ∧ bodySegment (some (.boolV true)) = .ok (some "true") :=
  ⟨C5_log_line_format.2.1 "GET" "/api/z" 200 3 none (some "r1") none (by decide) rfl,
   C5_log_line_format.2.2.1.2.2 "r1" (by decide),
   C5_log_line_format.2.2.2.1.2.1 (.boolV false) rfl,
   C5_log_line_format.2.2.2.1.2.2 (.boolV true) "true" rfl rfl⟩

/-- C8, counterexample: a handler that calls `res.json(null)` has emitted a
JSON body through the captured call, yet the log line does not contain its
serialized form `null` — the truthiness test `if (capturedJsonResponse)` on
line 39 drops every falsy captured body. -/
theorem C8_null_body_omitted :
    finishHandler "GET" "/api/a" 200 1 (capturedJson [JsValue.nullV]) none
      = .ok ["GET /api/a 200 in 1ms"]
    ∧ jsonStringify JsValue.nullV = .ok "null"
    ∧ ¬ ("null".data <:+: "GET /api/a 200 in 1ms".data) :=
  ⟨rfl, rfl, by decide⟩

/-- C8, amended: for every captured body that is truthy and serializes
successfully, the assembled line contains ` :: ` followed by the serialized
form, and the emitted line is that assembled line subject only to the
whole-line 100-character truncation. -/
theorem C8_body_in_log_line (m p : String) (st d : Nat) (calls : List JsValue)
    (b : JsValue) (s : String) (rid : Option String)
    (hp : pathIsApi p = true) (hc : capturedJson calls = some b)
    (ht : jsTruthy b = true) (hs : jsonStringify b = .ok s) :
    finishHandler m p st d (capturedJson calls) rid
      = .ok [truncate100 (assembleLine m p st d (some s) (idSegment rid))]
    ∧ (" :: " ++ s).data <:+: (assembleLine m p st d (some s) (idSegment rid)).data := by
  constructor
  · simp [finishHandler, hp, hc, bodySegment, ht, hs]
  · refine ⟨(m ++ " " ++ p ++ " " ++ toString st ++ " in " ++ toString d ++ "ms").data,
      (match idSegment rid with
       | some r => " [" ++ r ++ "]"
       | none => "").data, ?_⟩
    simp [assembleLine]

/-- C8, witness: an empty-object body appears serialized in the line. -/
theorem C8_body_in_log_line_witness :
    finishHandler "GET" "/api/w" 200 4 (capturedJson [JsValue.objV []]) none
      = .ok [truncate100 (assembleLine "GET" "/api/w" 200 4 (some ("\x7b" ++ "\x7d")) (idSegment none))]
    ∧ (" :: " ++ ("\x7b" ++ "\x7d")).data
        <:+: (assembleLine "GET" "/api/w" 200 4 (some ("\x7b" ++ "\x7d")) (idSegment none)).data :=
  C8_body_in_log_line "GET" "/api/w" 200 4 [JsValue.objV []] (JsValue.objV []) ("\x7b" ++ "\x7d") none
    (by decide) rfl rfl rfl

/-- C2, counterexample: a captured body containing a BigInt makes
`JSON.stringify` on line 40 throw; the `finish` handler raises instead of
completing, and no degraded log line is emitted — refuting the claim that
the handler completes without raising and logs a line without the body
segment. -/
theorem C2_bigint_body_raises :
    finishHandler "GET" "/api/amenities/sick-food" 200 8 (some (JsValue.bigintV 1)) none
      = .error () :=
  rfl

/-- C2, amended: when the captured body is truthy and its serialization
fails, the `finish` handler propagates the exception and emits no log line;
for a request outside the API namespace the handler never reaches the
serialization and always completes with no output. -/
theorem C2_serialization_throw :
    (∀ m p st d b rid, pathIsApi p = true → jsTruthy b = true →
        jsonStringify b = .error () →
        finishHandler m p st d (some b) rid = .error ())
    ∧ (∀ m p st d cap rid, pathIsApi p = false →
        finishHandler m p st d cap rid = .ok []) := by
  constructor
  · intro m p st d b rid hp ht hs
    simp [finishHandler, hp, bodySegment, ht, hs]
  · intro m p st d cap rid hp
    simp [finishHandler, hp]

/-- C2, witness: a BigInt body under the API namespace raises; the same
body outside the namespace is never serialized. -/
theorem C2_serialization_throw_witness :
    finishHandler "PUT" "/api/c" 500 9 (some (JsValue.bigintV 2)) (some "x") = .error ()
    ∧ finishHandler "GET" "/assets/app.js" 200 1 (some (JsValue.bigintV 2)) none = .ok [] :=
  ⟨C2_serialization_throw.1 "PUT" "/api/c" 500 9 (JsValue.bigintV 2) (some "x") (by decide) rfl rfl,
   C2_serialization_throw.2 "GET" "/assets/app.js" 200 1 (some (JsValue.bigintV 2)) none (by decide)⟩

/-- C6, counterexample: an API request that finished normally but whose
handler passed a BigInt to `res.json` produces zero log lines — the
`finish` callback throws before reaching `log` — refuting the claim that
every API request emits exactly one log line. -/
theorem C6_api_request_zero_lines :
    observerOutput { method := "POST", path := "/api/b", requestId := none, statusCode := 204,
                     duration := 2, jsonCalls := [JsValue.bigintV 7], finished := true }
      = .error () :=
  rfl

/-- C6, amended: a finished API request emits exactly one log line provided
its captured body, when truthy, serializes successfully; a request outside
the API namespace emits zero lines; and no line is emitted before the
response has finished. -/
theorem C6_observer_line_counts :
    (∀ r : ApiRequest, r.finished = true → pathIsApi r.path = true →
        (∀ b, capturedJson r.jsonCalls = some b → jsTruthy b = true →
          ∃ s, jsonStringify b = Except.ok s) →
        ∃ line, observerOutput r = .ok [line])
    ∧ (∀ r : ApiRequest, pathIsApi r.path = false → observerOutput r = .ok [])
    ∧ (∀ r : ApiRequest, r.finished = false → observerOutput r = .ok []) := by
  refine ⟨?_, ?_, ?_⟩
  · intro r hf hp hser
    cases hbs : bodySegment (capturedJson r.jsonCalls) with
    | error e =>
      exfalso
      cases hc : capturedJson r.jsonCalls with
      | none => rw [hc] at hbs; exact Except.noConfusion hbs
      | some b =>
        rw [hc] at hbs
        by_cases ht : jsTruthy b
        · obtain ⟨s, hsok⟩ := hser b hc ht
          rw [bodySegment, if_pos ht, hsok] at hbs
          exact Except.noConfusion hbs
        · rw [bodySegment, if_neg ht] at hbs
          exact Except.noConfusion hbs
    | ok seg =>
      exact ⟨truncate100 (assembleLine r.method r.path r.statusCode r.duration seg (idSegment r.requestId)),
        by simp [observerOutput, hf, finishHandler, hp, hbs]⟩
  · intro r hp
    cases hf : r.finished <;> simp [observerOutput, finishHandler, hp, hf]
  · intro r hf
    simp [observerOutput, hf]

/-- C6, witness: a finished API request with a serializable body emits one
line; a non-API request and an unfinished request emit none. -/
theorem C6_observer_line_counts_witness :
    (∃ line, observerOutput
        { method := "GET", path := "/api/v", requestId := some "id1", statusCode := 200,
          duration := 4, jsonCalls := [JsValue.objV [("ok", JsValue.boolV true)]], finished := true }
        = .ok [line])
    ∧ observerOutput
        { method := "GET", path := "/", requestId := none, statusCode := 200,
          duration := 1, jsonCalls := [], finished := true }
        = .ok []
    ∧ observerOutput
        { method := "GET", path := "/api/v", requestId := none, statusCode := 200,
          duration := 4, jsonCalls := [], finished := false }
        = .ok [] :=
  ⟨C6_observer_line_counts.1
      { method := "GET", path := "/api/v", requestId := some "id1", statusCode := 200,
        duration := 4, jsonCalls := [JsValue.objV [("ok", JsValue.boolV true)]], finished := true }
      rfl (by decide)
      (fun b hb ht => by
        injection hb with hb
        exact ⟨"\x7b\"ok\":true\x7d", by rw [← hb]; rfl⟩),
   C6_observer_line_counts.2.1
      { method := "GET", path := "/", requestId := none, statusCode := 200,
        duration := 1, jsonCalls := [], finished := true }
      (by decide),
   C6_observer_line_counts.2.2
      { method := "GET", path := "/api/v", requestId := none, statusCode := 200,
        duration := 4, jsonCalls := [], finished := false }
      rfl⟩
